import Mathlib

/-!
Verification development for the "KPI Creation Kit" Streamlit application
(`app.py`).  The Python source is shallowly embedded: Python dicts become
insertion-ordered association lists, a KPI record is an association list of
string fields, byte strings become `List UInt8`, floats become `ℚ`, and the
random noise of `np.random.normal` becomes an explicit `Nat → ℚ` argument.
Session state and the Streamlit interaction handlers of `main` become an
explicit state type and a step function over an operation type.
-/

/-- Python `dict.get(key)` over an insertion-ordered association list
(first binding of a key wins; a Python dict holds each key once). -/
def dictGet? {α : Type} : List (String × α) → String → Option α
  | [], _ => none
  | (k, v) :: t, key => if k == key then some v else dictGet? t key

/-- Python `dict.get(key, default)`. -/
def dictGetD {α : Type} (d : List (String × α)) (key : String) (dflt : α) : α :=
  (dictGet? d key).getD dflt

/-- Python `d[key] = v`: replace the value in place when the key is present,
otherwise append the binding at the end (dict insertion order). -/
def dictSet {α : Type} : List (String × α) → String → α → List (String × α)
  | [], key, v => [(key, v)]
  | (k, w) :: t, key, v =>
      if k == key then (k, v) :: t else (k, w) :: dictSet t key v

/-- Test `startsWithList needle hay`: whether `needle` starts `hay`
(character lists). -/
def startsWithList : List Char → List Char → Bool
  | [], _ => true
  | _ :: _, [] => false
  | a :: as, b :: bs => a == b && startsWithList as bs

/-- Occurrence of `needle` somewhere in `hay` (character lists). -/
def containsSub (needle : List Char) : List Char → Bool
  | [] => startsWithList needle []
  | c :: t => startsWithList needle (c :: t) || containsSub needle t

/-- Python `sub in s` on strings (substring test). -/
def containsSubstr (s sub : String) : Bool :=
  containsSub sub.data s.data

/-- Python `s.lower()` (character-wise lowering; the strings involved are
ASCII). -/
def pyLower (s : String) : String :=
  String.mk (s.data.map Char.toLower)

/-- A Python dict used as a KPI record: an association list of string
fields. -/
abbrev Rec : Type := List (String × String)

/-- The record has exactly the fields `name`, `description`, `guidance`
(in dict-literal insertion order), all with string values. -/
def kpiShape (r : Rec) : Bool :=
  match r with
  | [(k1, _), (k2, _), (k3, _)] =>
      k1 == "name" && k2 == "description" && k3 == "guidance"
  | _ => false

/-- The `"POC"` entry of the `predefined_kpis` dict literal in
`get_predefined_kpis` (`app.py` lines 246-272). -/
def pocKpis : List Rec :=
  [[("name", "Concept Validation Rate"),
    ("description", "Percentage of key features or concepts validated through initial testing or stakeholder feedback."),
    ("guidance", "Aim for ≥ 80% validation rate.")],
   [("name", "Stakeholder Satisfaction Score"),
    ("description", "Average satisfaction rating from stakeholders involved in the POC."),
    ("guidance", "Aim for ≥ 4 out of 5.")],
   [("name", "Technical Feasibility Index"),
    ("description", "Percentage of technical requirements met without major issues."),
    ("guidance", "Aim for ≥ 90% feasibility.")],
   [("name", "Resource Utilization Efficiency"),
    ("description", "Ratio of actual resource usage to planned resource allocation."),
    ("guidance", "Aim for ≥ 95% efficiency.")],
   [("name", "POC Completion Rate"),
    ("description", "Percentage of POC milestones achieved within the planned timeframe."),
    ("guidance", "Aim for ≥ 100% completion.")]]

/-- The KPI record appended by the B2B2C digital-app customization
(`app.py` lines 334-338); it is also the last element of the base
`"Closed Beta"` catalog. -/
def zillowKpi : Rec :=
  [("name", "Zillow Home Click Rate"),
   ("description", "Tracks the number of clicks on Zillow home listings within the app."),
   ("guidance", "Aim for ≥ 500 clicks per month.")]

/-- The `"Closed Beta"` entry of the `predefined_kpis` dict literal
(`app.py` lines 273-299). -/
def closedBetaKpis : List Rec :=
  [[("name", "User Engagement Score"),
    ("description", "Measures active user interactions, such as daily/monthly active users."),
    ("guidance", "Aim for ≥ 60% active user rate.")],
   [("name", "Feedback Implementation Rate"),
    ("description", "Percentage of user feedback items that are addressed and implemented."),
    ("guidance", "Aim for ≥ 75% implementation.")],
   [("name", "Bug Fix Rate"),
    ("description", "Percentage of reported bugs resolved within the beta period."),
    ("guidance", "Aim for ≥ 90% fix rate.")],
   [("name", "Net Promoter Score (NPS)"),
    ("description", "Measures user willingness to recommend the product to others."),
    ("guidance", "Aim for ≥ 50 NPS.")],
   zillowKpi]

/-- The `"Public MVP"` entry of the `predefined_kpis` dict literal
(`app.py` lines 300-326). -/
def publicMvpKpis : List Rec :=
  [[("name", "Adoption Rate"),
    ("description", "Percentage of target users who adopt the MVP within a specific timeframe."),
    ("guidance", "Aim for ≥ 25% within the first quarter.")],
   [("name", "Customer Satisfaction Score (CSAT)"),
    ("description", "Average satisfaction rating from users post-interaction or usage."),
    ("guidance", "Aim for ≥ 4 out of 5.")],
   [("name", "Retention Rate"),
    ("description", "Percentage of users who continue using the MVP over a set period."),
    ("guidance", "Aim for ≥ 50% after six months.")],
   [("name", "Churn Rate"),
    ("description", "Percentage of users who stop using the MVP within a specific period."),
    ("guidance", "Aim for ≤ 5% per month.")],
   [("name", "Conversion Rate"),
    ("description", "Percentage of users who take a desired action (e.g., sign-up, purchase)."),
    ("guidance", "Aim for ≥ 3%.")]]

/-- Model of `get_predefined_kpis(phase, survey_responses)` (`app.py` lines 236-340).
The Python function builds the three-phase dict literal fresh on each call,
conditionally appends a second Zillow record to its `"Closed Beta"` entry,
and returns `predefined_kpis.get(phase, [])`.  The append condition includes
`phase == "Closed Beta"`, so the conditional list below is exactly the
`"Closed Beta"` entry at lookup time.  `industry` is read from the survey
but unused, as in the source. -/
def get_predefined_kpis (phase : String) (survey_responses : List (String × String)) : List Rec :=
  let industry := dictGetD survey_responses "Industry" "General"
  let product_audience := dictGetD survey_responses "Product Audience" "General"
  let closedBetaEntry :=
    if phase == "Closed Beta"
        && product_audience == "B2B2C (Business-to-Business-to-Consumer)"
        && containsSubstr (pyLower (dictGetD survey_responses "Offering Type" "")) "digital app"
    then closedBetaKpis ++ [zillowKpi]
    else closedBetaKpis
  let _ := industry
  dictGetD
    [("POC", pocKpis), ("Closed Beta", closedBetaEntry), ("Public MVP", publicMvpKpis)]
    phase []

/-- UTF-8 encoding of one character (model of CPython's encoder). -/
def utf8Char (c : Char) : List UInt8 :=
  let n := c.toNat
  if n < 128 then [UInt8.ofNat n]
  else if n < 2048 then [UInt8.ofNat (192 + n / 64), UInt8.ofNat (128 + n % 64)]
  else if n < 65536 then
    [UInt8.ofNat (224 + n / 4096), UInt8.ofNat (128 + n / 64 % 64),
     UInt8.ofNat (128 + n % 64)]
  else
    [UInt8.ofNat (240 + n / 262144), UInt8.ofNat (128 + n / 4096 % 64),
     UInt8.ofNat (128 + n / 64 % 64), UInt8.ofNat (128 + n % 64)]

/-- Python `s.encode('utf-8')`, as a byte list. -/
def pyUtf8 (s : String) : List UInt8 :=
  (s.data.map utf8Char).flatten

/-- Python `s.encode('latin-1', errors)`: with `errors = "strict"` a
character above U+00FF raises `UnicodeEncodeError`; with `"replace"` it is
replaced by `?` (byte 63). -/
def pyEncodeLatin1 (errors : String) (s : String) : Except String (List UInt8) :=
  if errors == "strict" && s.data.any (fun c => 255 < c.toNat) then
    .error "UnicodeEncodeError"
  else
    .ok (s.data.map (fun c => if c.toNat ≤ 255 then UInt8.ofNat c.toNat else 63))

/-- Python `sep.join(parts)`. -/
def pyJoin (sep : String) : List String → String
  | [] => ""
  | [a] => a
  | a :: rest => a ++ sep ++ pyJoin sep rest

/-- The `text_lines` list built by the loop of `export_kpis_text`
(`app.py` lines 75-79): three lines per record, the guidance line carrying a
trailing newline.  A missing field is a Python `KeyError`, modelled as
`none`. -/
def textLinesOf : List Rec → Option (List String)
  | [] => some []
  | kpi :: rest => do
      let n ← dictGet? kpi "name"
      let d ← dictGet? kpi "description"
      let g ← dictGet? kpi "guidance"
      let tail ← textLinesOf rest
      pure (("KPI: " ++ n) :: ("Description: " ++ d) ::
            ("Guidance: " ++ g ++ "\n") :: tail)

/-- Model of `export_kpis_text(kpi_list)` (`app.py` lines 73-80):
`"\n".join(text_lines).encode('utf-8')`. -/
def export_kpis_text (kpi_list : List Rec) : Option (List UInt8) := do
  let text_lines ← textLinesOf kpi_list
  pure (pyUtf8 (pyJoin "\n" text_lines))

/-- Model of `explain_kpis(kpi_list)` (`app.py` lines 225-233): a dict mapping each
KPI name to `f"{description} ({guidance})"`, built by repeated dict
assignment. -/
def explain_kpis (kpi_list : List Rec) : Option (List (String × String)) :=
  kpi_list.foldlM
    (fun explanations kpi => do
      let n ← dictGet? kpi "name"
      let d ← dictGet? kpi "description"
      let g ← dictGet? kpi "guidance"
      pure (dictSet explanations n (d ++ " (" ++ g ++ ")")))
    []

/-- A value appearing inside the object passed to `json.dumps`: the KPI
records only ever hold strings, but Python would raise `TypeError` on any
other object, which `.other` represents. -/
inductive JVal where
  | str (s : String)
  | other (typeName : String)
deriving DecidableEq

/-- One lowercase hexadecimal digit. -/
def hexDig (n : Nat) : Char :=
  if n < 10 then Char.ofNat (48 + n) else Char.ofNat (87 + n)

/-- Four lowercase hexadecimal digits, as in Python's `\uXXXX` escapes. -/
def hex4 (n : Nat) : String :=
  String.mk [hexDig (n / 4096 % 16), hexDig (n / 256 % 16),
             hexDig (n / 16 % 16), hexDig (n % 16)]

/-- Escaping of one character by `json.dumps` (default `ensure_ascii=True`):
backslash, quote and the short control escapes, `\uXXXX` for every other
character outside printable ASCII, surrogate pairs beyond U+FFFF. -/
def jsonEscapeChar (c : Char) : String :=
  if c == '\\' then "\\\\"
  else if c == '"' then "\\\""
  else if c == Char.ofNat 8 then "\\b"
  else if c == Char.ofNat 12 then "\\f"
  else if c == '\n' then "\\n"
  else if c == '\r' then "\\r"
  else if c == '\t' then "\\t"
  else if 32 ≤ c.toNat && c.toNat ≤ 126 then String.singleton c
  else if c.toNat < 65536 then "\\u" ++ hex4 c.toNat
  else
    let v := c.toNat - 65536
    "\\u" ++ hex4 (55296 + v / 1024) ++ "\\u" ++ hex4 (56320 + v % 1024)

/-- Rendering of a string value by `json.dumps`. -/
def jsonQuote (s : String) : String :=
  "\"" ++ String.join (s.data.map jsonEscapeChar) ++ "\""

/-- Serialize one value; a non-string object is Python's `TypeError`. -/
def dumpsVal : JVal → Except String String
  | .str s => .ok (jsonQuote s)
  | .other typeName =>
      .error ("Object of type " ++ typeName ++ " is not JSON serializable")

/-- Serialize the `"key": value` items of one dict, in insertion order. -/
def dumpsEntries : List (String × JVal) → Except String (List String)
  | [] => .ok []
  | (k, v) :: t => do
      let vs ← dumpsVal v
      let rest ← dumpsEntries t
      .ok ((jsonQuote k ++ ": " ++ vs) :: rest)

/-- Serialization by `json.dumps` of one dict nested at depth 1 of an
`indent=4` document:
items indented by 8 spaces, closing brace by 4. -/
def dumpsDict (d : List (String × JVal)) : Except String String := do
  let items ← dumpsEntries d
  if items.isEmpty then .ok "\x7b\x7d"
  else
    .ok ("\x7b\n" ++ pyJoin ",\n" (items.map (fun s => "        " ++ s)) ++
         "\n    \x7d")

/-- Serialize each dict of the top-level list. -/
def dumpsRecs : List (List (String × JVal)) → Except String (List String)
  | [] => .ok []
  | d :: t => do
      let s ← dumpsDict d
      let rest ← dumpsRecs t
      .ok (s :: rest)

/-- Model of `json.dumps(obj, indent=4)` for the shape the app passes: a list of
flat dicts. -/
def pyJsonDumpsIndent4 (ds : List (List (String × JVal))) : Except String String := do
  let items ← dumpsRecs ds
  if items.isEmpty then .ok "[]"
  else .ok ("[\n" ++ pyJoin ",\n" (items.map (fun s => "    " ++ s)) ++ "\n]")

/-- The Python object `kpi_list` as passed to `json.dumps`: every field
value is a string. -/
def kpiListVal (kpi_list : List Rec) : List (List (String × JVal)) :=
  kpi_list.map (fun r => r.map (fun p => (p.1, JVal.str p.2)))

/-- Model of `export_kpis_json(kpi_list)` (`app.py` lines 64-71): the UTF-8 bytes of
`json.dumps(kpi_list, indent=4)`, or `b""` from the `except TypeError`
branch. -/
def export_kpis_json (kpi_list : List Rec) : List UInt8 :=
  match pyJsonDumpsIndent4 (kpiListVal kpi_list) with
  | .ok json_str => pyUtf8 json_str
  | .error _ => []

/-- Modelled from the fpdf2 library, which is outside this repository:
`pdf.output(dest='S')` returns the PDF document as a one-byte-per-char
string that begins with the `%PDF` header, contains the rendered cell
texts, and is non-empty for any cell list. -/
def fpdfOutput (cells : List String) : String :=
  "%PDF-1.3\n" ++ pyJoin "\n" cells ++ "\n%%EOF"

/-- The `multi_cell` texts written by the loop of `export_kpis_pdf`
(`app.py` lines 97-107). -/
def pdfCellsOf : List Rec → Option (List String)
  | [] => some []
  | kpi :: rest => do
      let n ← dictGet? kpi "name"
      let d ← dictGet? kpi "description"
      let g ← dictGet? kpi "guidance"
      let tail ← pdfCellsOf rest
      pure (("KPI: " ++ n) :: ("Description: " ++ d) ::
            ("Guidance: " ++ g ++ "\n") :: tail)

/-- Model of `export_kpis_pdf(kpi_list)` (`app.py` lines 82-116): a title cell, one
cell group per record, then `pdf.output(dest='S').encode('latin-1',
'replace')`; the `except UnicodeEncodeError` branch returns `b""`. -/
def export_kpis_pdf (kpi_list : List Rec) : Option (List UInt8) := do
  let cells ← pdfCellsOf kpi_list
  let out := fpdfOutput ("Selected KPIs" :: cells)
  match pyEncodeLatin1 "replace" out with
  | .ok bytes => pure bytes
  | .error _ => pure []

/-- One `{"base": _, "growth": _, "std_dev": _}` benchmark entry.
Python floats are modelled as exact rationals. -/
structure Benchmark where
  base : ℚ
  growth : ℚ
  std_dev : ℚ
deriving DecidableEq

/-- The `"Technology"` entry of `BENCHMARKS` (`app.py` lines 10-21). -/
def technologyBenchmarks : List (String × Benchmark) :=
  [("User Engagement Score", ⟨65, 3/2, 2⟩),
   ("Feedback Implementation Rate", ⟨70, 6/5, 1⟩),
   ("Bug Fix Rate", ⟨85, 1, 1⟩),
   ("Net Promoter Score (NPS)", ⟨40, 2, 5⟩),
   ("Zillow Home Click Rate", ⟨600, 30, 20⟩),
   ("Adoption Rate", ⟨25, 1/2, 3/10⟩),
   ("Customer Satisfaction Score (CSAT)", ⟨4, 1/20, 1/10⟩),
   ("Retention Rate", ⟨50, 1, 2⟩),
   ("Churn Rate", ⟨5, 1/10, 3/10⟩),
   ("Conversion Rate", ⟨3, 1/20, 1/10⟩)]

/-- The `"Healthcare"` entry of `BENCHMARKS` (`app.py` lines 22-33). -/
def healthcareBenchmarks : List (String × Benchmark) :=
  [("User Engagement Score", ⟨55, 13/10, 2⟩),
   ("Feedback Implementation Rate", ⟨75, 11/10, 1⟩),
   ("Bug Fix Rate", ⟨90, 4/5, 1⟩),
   ("Net Promoter Score (NPS)", ⟨35, 9/5, 5⟩),
   ("Zillow Home Click Rate", ⟨500, 25, 20⟩),
   ("Adoption Rate", ⟨20, 1/2, 3/10⟩),
   ("Customer Satisfaction Score (CSAT)", ⟨7/2, 1/20, 1/10⟩),
   ("Retention Rate", ⟨45, 1, 2⟩),
   ("Churn Rate", ⟨6, 1/10, 3/10⟩),
   ("Conversion Rate", ⟨5/2, 1/20, 1/10⟩)]

/-- The `"General"` entry of `BENCHMARKS` (`app.py` lines 35-46). -/
def generalBenchmarks : List (String × Benchmark) :=
  [("User Engagement Score", ⟨60, 1, 2⟩),
   ("Feedback Implementation Rate", ⟨70, 1, 1⟩),
   ("Bug Fix Rate", ⟨85, 1, 1⟩),
   ("Net Promoter Score (NPS)", ⟨40, 3/2, 5⟩),
   ("Zillow Home Click Rate", ⟨550, 27, 20⟩),
   ("Adoption Rate", ⟨25, 1/2, 3/10⟩),
   ("Customer Satisfaction Score (CSAT)", ⟨4, 1/20, 1/10⟩),
   ("Retention Rate", ⟨50, 1, 2⟩),
   ("Churn Rate", ⟨5, 1/10, 3/10⟩),
   ("Conversion Rate", ⟨3, 1/20, 1/10⟩)]

/-- The `BENCHMARKS` table (`app.py` lines 9-47). -/
def BENCHMARKS : List (String × List (String × Benchmark)) :=
  [("Technology", technologyBenchmarks),
   ("Healthcare", healthcareBenchmarks),
   ("General", generalBenchmarks)]

/-- Round half to even on `ℚ` (the tie-breaking rule of Python's
`round`). -/
def roundHalfEven (x : ℚ) : ℤ :=
  let f := ⌊x⌋
  let r := x - (f : ℚ)
  if r < 1/2 then f
  else if 1/2 < r then f + 1
  else if f % 2 = 0 then f else f + 1

/-- Python `round(x, 2)` over exact rationals. -/
def pyRound2 (x : ℚ) : ℚ :=
  (roundHalfEven (100 * x) : ℚ) / 100

/-- Python `int(x)`: truncation toward zero. -/
def pyInt (x : ℚ) : ℚ :=
  if 0 ≤ x then ((⌊x⌋ : ℤ) : ℚ) else ((⌈x⌉ : ℤ) : ℚ)

/-- The `[f"Month {i}" for i in range(1, 13)]` list, computed both as
`time_periods` and as `expected_periods` in the source. -/
def month_periods : List String :=
  (List.range 12).map (fun i => "Month " ++ toString (i + 1))

/-- Model of `generate_focused_fake_data(industry, product_audience, kpi_name)`
(`app.py` lines 343-392).  The draws of `np.random.normal(0, std_dev)` are
supplied as the explicit realization `noise`, one value per month, so a
universally quantified `noise` covers every realization.  Notes kept from
the source: the percentage branch re-tests its own guard before clamping
(the inner `if` of lines 368-369 repeats the outer condition, so the clamp
always runs there); `product_audience` is an unused parameter; the final
`fillna(0)` is the identity here because `ℚ` has no NaN. -/
def generate_focused_fake_data (industry product_audience kpi_name : String)
    (noise : Nat → ℚ) : List (String × ℚ) :=
  let time_periods := month_periods
  let industry_benchmarks := dictGetD BENCHMARKS industry generalBenchmarks
  let benchmark := dictGetD industry_benchmarks kpi_name ⟨1000, 1, 2⟩
  let base := benchmark.base
  let growth := benchmark.growth
  let _std_dev := benchmark.std_dev
  let _ := product_audience
  let values : List ℚ :=
    if containsSubstr (pyLower kpi_name) "score"
        || containsSubstr (pyLower kpi_name) "rate"
        || containsSubstr (pyLower kpi_name) "index" then
      (List.range 12).map (fun (i : ℕ) =>
        pyRound2 (max (min (base + growth * (i : ℚ) + noise i) 100) 0))
    else
      (List.range 12).map (fun (i : ℕ) => pyInt (base * growth ^ i + noise i))
  let df := time_periods.zip values
  if !(df.all (fun p => month_periods.contains p.1)) then []
  else df.map (fun p => (p.1, p.2))

/-- The ten survey form answers, in the order of the questions of
`survey_page` (`app.py` lines 402-534). -/
structure SurveyForm where
  industry : String
  product_audience : String
  geography : String
  target_audience : String
  sell_to_audience : String
  offering_type : String
  business_goal : String
  benefit_statement : String
  timeframe : String
  budget : String
deriving DecidableEq

/-- The `st.session_state.survey_responses` dict built on submission
(`app.py` lines 540-551). -/
def surveyDict (f : SurveyForm) : List (String × String) :=
  [("Industry", f.industry),
   ("Product Audience", f.product_audience),
   ("Geography", f.geography),
   ("Target Audience", f.target_audience),
   ("Existing Customer Base", f.sell_to_audience),
   ("Offering Type", f.offering_type),
   ("Business Goal", f.business_goal),
   ("Benefit Statement", f.benefit_statement),
   ("Timeframe", f.timeframe),
   ("Budget", f.budget)]

/-- The Streamlit session state (`app.py` lines 49-56), restricted to the
fields the verified claims touch; the display-only `phase_outputs`,
`selected_kpis` label list and chart figures are omitted. -/
structure AppState where
  survey_completed : Bool
  survey_responses : List (String × String)
  kpi_suggestions : List (String × List Rec)
  selected_kpis_struct : List Rec
  kpi_data : List (String × List (String × ℚ))
  kpi_explanations : List (String × String)

/-- The session state of a fresh session (`app.py` lines 49-56):
`survey_completed` is initialized to `False` and the containers are
empty. -/
def initState : AppState :=
  { survey_completed := false
    survey_responses := []
    kpi_suggestions := []
    selected_kpis_struct := []
    kpi_data := []
    kpi_explanations := [] }

/-- The phase list of the submission handler (`app.py` line 557). -/
def phasesList : List String := ["POC", "Closed Beta", "Public MVP"]

/-- One user interaction that mutates the session state. -/
inductive Op where
  /-- Submitting the survey form (`app.py` lines 537-583). -/
  | submitSurvey (form : SurveyForm)
  /-- Saving a KPI selection from the multiselect (`app.py` lines 626-647). -/
  | selectKpis (selection : List Rec)
  /-- The `Manually Add Data` button for one KPI (`app.py` lines 714-731). -/
  | addDataPoint (kpiName time_period : String) (value : ℚ)
  /-- The `Generate Imaginary Data` button for one KPI
  (`app.py` lines 699-712), with the noise realization made explicit. -/
  | generateData (kpiName : String) (noise : Nat → ℚ)

/-- Effect of one interaction on the session state, following the
corresponding handler in the source. -/
def applyOp (op : Op) (s : AppState) : AppState :=
  match op with
  | .submitSurvey form =>
      -- `app.py` lines 538-582: store the responses, set
      -- `survey_completed = True`, store the per-phase KPI suggestions and
      -- the explanations of all suggested KPIs.
      let responses := surveyDict form
      let suggestions := phasesList.map
        (fun phase => (phase, get_predefined_kpis phase responses))
      let all_kpis := (suggestions.map Prod.snd).flatten
      { s with
        survey_completed := true
        survey_responses := responses
        kpi_suggestions := suggestions
        kpi_explanations := (explain_kpis all_kpis).getD s.kpi_explanations }
  | .selectKpis selection =>
      -- `app.py` line 642.
      { s with selected_kpis_struct := selection }
  | .addDataPoint kpiName time_period value =>
      -- `app.py` lines 719-731: `if time_period and value is not None`;
      -- `st.number_input` never yields `None`, and a non-empty string is
      -- the truthy case.
      if time_period ≠ "" then
        let new_data := [(time_period, value)]
        match dictGet? s.kpi_data kpiName with
        | some old =>
            { s with kpi_data := dictSet s.kpi_data kpiName (old ++ new_data) }
        | none =>
            { s with kpi_data := dictSet s.kpi_data kpiName new_data }
      else s
  | .generateData kpiName noise =>
      -- `app.py` lines 700-711.
      let industry := dictGetD s.survey_responses "Industry" "General"
      let product_audience := dictGetD s.survey_responses "Product Audience" "General"
      let df := generate_focused_fake_data industry product_audience kpiName noise
      if df ≠ [] then { s with kpi_data := dictSet s.kpi_data kpiName df }
      else s

/-- Whether the interaction is the survey submission. -/
def isSubmit : Op → Bool
  | .submitSurvey _ => true
  | _ => false

/-- The function `main` renders the survey form exactly in the
`not st.session_state.survey_completed` branch (`app.py` lines 589-590). -/
def rendersSurveyForm (s : AppState) : Bool :=
  !s.survey_completed

/-- The per-record text block described by the spec for the text export:
the three labeled lines `KPI:`, `Description:`, `Guidance:`, the guidance
line carrying the trailing newline that leaves a blank line before any
following block. -/
def kpiBlock (r : Rec) : String :=
  "KPI: " ++ dictGetD r "name" "" ++ "\n" ++
  "Description: " ++ dictGetD r "description" "" ++ "\n" ++
  "Guidance: " ++ dictGetD r "guidance" "" ++ "\n"

/-- The claimed rendering of the text export: one block per record in list
order, consecutive blocks joined by a newline. -/
def kpiTextRendering : List Rec → String
  | [] => ""
  | [r] => kpiBlock r
  | r :: rest => kpiBlock r ++ "\n" ++ kpiTextRendering rest

/-! ## Association-list dict lemmas -/

theorem dictGet_dictSet_self {α : Type} (d : List (String × α)) (k : String)
    (v : α) : dictGet? (dictSet d k v) k = some v := by
  induction d with
  | nil => simp [dictSet, dictGet?]
  | cons p t ih =>
      obtain ⟨k1, v1⟩ := p
      by_cases h : k1 = k
      · subst h; simp [dictSet, dictGet?]
      · simp [dictSet, dictGet?, h, ih]

theorem dictGet_dictSet_other {α : Type} (d : List (String × α))
    (k k2 : String) (v : α) (h : k2 ≠ k) :
    dictGet? (dictSet d k v) k2 = dictGet? d k2 := by
  have h2 : ¬ (k = k2) := fun hh => h hh.symm
  induction d with
  | nil => simp [dictSet, dictGet?, h2]
  | cons p t ih =>
      obtain ⟨k1, v1⟩ := p
      by_cases hk : k1 = k
      · subst hk; simp [dictSet, dictGet?, h2]
      · by_cases hk2 : k1 = k2
        · subst hk2; simp [dictSet, dictGet?, hk]
        · simp [dictSet, dictGet?, hk, hk2, ih]

/-! ## Characterization of `get_predefined_kpis` -/

theorem gpk_poc (survey : List (String × String)) :
    get_predefined_kpis "POC" survey = pocKpis := by
  simp [get_predefined_kpis, dictGetD, dictGet?]

theorem gpk_mvp (survey : List (String × String)) :
    get_predefined_kpis "Public MVP" survey = publicMvpKpis := by
  simp [get_predefined_kpis, dictGetD, dictGet?]

theorem gpk_cb (survey : List (String × String)) :
    get_predefined_kpis "Closed Beta" survey =
      (if (dictGetD survey "Product Audience" "General"
            == "B2B2C (Business-to-Business-to-Consumer)")
          && containsSubstr (pyLower (dictGetD survey "Offering Type" "")) "digital app"
       then closedBetaKpis ++ [zillowKpi] else closedBetaKpis) := by
  simp [get_predefined_kpis, dictGetD, dictGet?]

theorem gpk_other (phase : String) (survey : List (String × String))
    (h1 : phase ≠ "POC") (h2 : phase ≠ "Closed Beta") (h3 : phase ≠ "Public MVP") :
    get_predefined_kpis phase survey = [] := by
  simp [get_predefined_kpis, dictGetD, dictGet?,
        (by simpa [eq_comm] using h1 : ¬ ("POC" = phase)),
        (by simpa [eq_comm] using h2 : ¬ ("Closed Beta" = phase)),
        (by simpa [eq_comm] using h3 : ¬ ("Public MVP" = phase))]

theorem gpk_cases (phase : String) (survey : List (String × String)) :
    get_predefined_kpis phase survey = [] ∨
    get_predefined_kpis phase survey = pocKpis ∨
    get_predefined_kpis phase survey = closedBetaKpis ∨
    get_predefined_kpis phase survey = closedBetaKpis ++ [zillowKpi] ∨
    get_predefined_kpis phase survey = publicMvpKpis := by
  by_cases h1 : phase = "POC"
  · subst h1; exact Or.inr (Or.inl (gpk_poc survey))
  by_cases h2 : phase = "Closed Beta"
  · subst h2
    rw [gpk_cb]
    split
    · exact Or.inr (Or.inr (Or.inr (Or.inl rfl)))
    · exact Or.inr (Or.inr (Or.inl rfl))
  by_cases h3 : phase = "Public MVP"
  · subst h3; exact Or.inr (Or.inr (Or.inr (Or.inr (gpk_mvp survey))))
  · exact Or.inl (gpk_other phase survey h1 h2 h3)

/-- C2: which KPIs are suggested is conditioned exactly on the three
pilot phases: for each of the phase strings `"POC"`, `"Closed Beta"` and
`"Public MVP"` and every survey-responses mapping, `get_predefined_kpis`
returns a non-empty list of at least five KPI records, and for every
other phase string it returns the empty list. -/
theorem phase_conditioning (phase : String) (survey : List (String × String)) :
    ((phase = "POC" ∨ phase = "Closed Beta" ∨ phase = "Public MVP") →
        5 ≤ (get_predefined_kpis phase survey).length ∧
        get_predefined_kpis phase survey ≠ []) ∧
    (phase ≠ "POC" → phase ≠ "Closed Beta" → phase ≠ "Public MVP" →
        get_predefined_kpis phase survey = []) := by
  constructor
  · rintro (rfl | rfl | rfl)
    · rw [gpk_poc]; exact ⟨by decide, by decide⟩
    · rw [gpk_cb]; split
      · exact ⟨by decide, by decide⟩
      · exact ⟨by decide, by decide⟩
    · rw [gpk_mvp]; exact ⟨by decide, by decide⟩
  · exact fun h1 h2 h3 => gpk_other phase survey h1 h2 h3

/-- Witness for C2 at the concrete phases `"POC"` and `"Launch"`. -/
theorem phase_conditioning_witness :
    (5 ≤ (get_predefined_kpis "POC" []).length ∧
      get_predefined_kpis "POC" [] ≠ []) ∧
    get_predefined_kpis "Launch" [] = [] :=
  ⟨(phase_conditioning "POC" []).1 (Or.inl rfl),
   (phase_conditioning "Launch" []).2 (by decide) (by decide) (by decide)⟩

/-- C4: every KPI record the program produces is a named metric with a
description and a target-setting guidance string: each element of any
`get_predefined_kpis` result has exactly the string fields `name`,
`description` and `guidance`, and the explanation generator and the
text/PDF export functions all consume such lists without a `KeyError`. -/
theorem kpi_record_shape (phase : String) (survey : List (String × String))
    (r : Rec) (hr : r ∈ get_predefined_kpis phase survey) :
    kpiShape r = true ∧
    (explain_kpis (get_predefined_kpis phase survey)).isSome = true ∧
    (export_kpis_text (get_predefined_kpis phase survey)).isSome = true ∧
    (export_kpis_pdf (get_predefined_kpis phase survey)).isSome = true := by
  rcases gpk_cases phase survey with h | h | h | h | h <;> rw [h] at hr ⊢
  · simp at hr
  · exact ⟨(by decide : ∀ x ∈ pocKpis, kpiShape x = true) r hr,
      by decide, by decide, by decide⟩
  · exact ⟨(by decide : ∀ x ∈ closedBetaKpis, kpiShape x = true) r hr,
      by decide, by decide, by decide⟩
  · exact ⟨(by decide : ∀ x ∈ closedBetaKpis ++ [zillowKpi], kpiShape x = true) r hr,
      by decide, by decide, by decide⟩
  · exact ⟨(by decide : ∀ x ∈ publicMvpKpis, kpiShape x = true) r hr,
      by decide, by decide, by decide⟩

/-- Witness for C4 at the first POC record. -/
theorem kpi_record_shape_witness :
    kpiShape [("name", "Concept Validation Rate"),
      ("description", "Percentage of key features or concepts validated through initial testing or stakeholder feedback."),
      ("guidance", "Aim for ≥ 80% validation rate.")] = true ∧
    (explain_kpis (get_predefined_kpis "POC" [])).isSome = true ∧
    (export_kpis_text (get_predefined_kpis "POC" [])).isSome = true ∧
    (export_kpis_pdf (get_predefined_kpis "POC" [])).isSome = true :=
  kpi_record_shape "POC" [] _ (by decide)

/-- C8: with product audience `"B2B2C (Business-to-Business-to-Consumer)"`
and an offering type containing `"digital app"` (case-insensitively),
`get_predefined_kpis "Closed Beta"` returns six records of which the
elements at positions 4 and 5 both carry the name
`"Zillow Home Click Rate"`: the base Closed Beta catalog already ends with
that KPI and the audience customization appends a second identical copy. -/
theorem closed_beta_duplicate (survey : List (String × String))
    (ha : dictGetD survey "Product Audience" "General" =
        "B2B2C (Business-to-Business-to-Consumer)")
    (hb : containsSubstr (pyLower (dictGetD survey "Offering Type" ""))
        "digital app" = true) :
    get_predefined_kpis "Closed Beta" survey = closedBetaKpis ++ [zillowKpi] ∧
    (get_predefined_kpis "Closed Beta" survey).length = 6 ∧
    dictGet? ((get_predefined_kpis "Closed Beta" survey).getD 4 []) "name" =
      some "Zillow Home Click Rate" ∧
    dictGet? ((get_predefined_kpis "Closed Beta" survey).getD 5 []) "name" =
      some "Zillow Home Click Rate" := by
  have e : get_predefined_kpis "Closed Beta" survey =
      closedBetaKpis ++ [zillowKpi] := by
    rw [gpk_cb, ha, hb]; simp
  exact ⟨e, by rw [e]; decide, by rw [e]; decide, by rw [e]; decide⟩

/-- Witness for C8 at a concrete B2B2C digital-app survey. -/
theorem closed_beta_duplicate_witness :
    get_predefined_kpis "Closed Beta"
        [("Product Audience", "B2B2C (Business-to-Business-to-Consumer)"),
         ("Offering Type", "Digital app")] = closedBetaKpis ++ [zillowKpi] ∧
    (get_predefined_kpis "Closed Beta"
        [("Product Audience", "B2B2C (Business-to-Business-to-Consumer)"),
         ("Offering Type", "Digital app")]).length = 6 ∧
    dictGet? ((get_predefined_kpis "Closed Beta"
        [("Product Audience", "B2B2C (Business-to-Business-to-Consumer)"),
         ("Offering Type", "Digital app")]).getD 4 []) "name" =
      some "Zillow Home Click Rate" ∧
    dictGet? ((get_predefined_kpis "Closed Beta"
        [("Product Audience", "B2B2C (Business-to-Business-to-Consumer)"),
         ("Offering Type", "Digital app")]).getD 5 []) "name" =
      some "Zillow Home Click Rate" :=
  closed_beta_duplicate _ (by decide) (by decide)

/-- A concrete completed survey form, used as explicit input below. -/
def form0 : SurveyForm :=
  { industry := "Technology"
    product_audience := "B2C (Business-to-Consumer)"
    geography := "National (Entire country)"
    target_audience := "Small business owners"
    sell_to_audience := "Yes"
    offering_type := "Physical product"
    business_goal := "Revenue growth"
    benefit_statement := "Help small business owners manage their finances more effectively."
    timeframe := "3–6 months"
    budget := "$1m–$5m" }

/-- C1 fails on the code at the concrete survey `form0`: the KPI
suggestions stored by the submission handler are a concrete value fully
determined by the survey responses — the same for any two session states —
with no external LLM call anywhere in the computation (`app.py` imports no
LLM client; the handler calls only `get_predefined_kpis`). -/
theorem suggestions_no_llm_counterexample :
    (applyOp (Op.submitSurvey form0) initState).kpi_suggestions =
      [("POC", pocKpis), ("Closed Beta", closedBetaKpis),
       ("Public MVP", publicMvpKpis)] ∧
    (applyOp (Op.submitSurvey form0) initState).kpi_suggestions =
      (applyOp (Op.submitSurvey form0)
        { initState with selected_kpis_struct := pocKpis }).kpi_suggestions := by
  exact ⟨by decide, rfl⟩

/-- C1 (amended): after the survey form is submitted, the KPI suggestions
for each phase stored in the session are computed locally by the static
lookup `get_predefined_kpis` — a fixed deterministic function of the survey
responses alone, independent of the rest of the session state; no external
LLM API participates. -/
theorem suggestions_fixed_function (form : SurveyForm) (s t : AppState) :
    (applyOp (Op.submitSurvey form) s).kpi_suggestions =
      phasesList.map
        (fun phase => (phase, get_predefined_kpis phase (surveyDict form))) ∧
    (applyOp (Op.submitSurvey form) s).kpi_suggestions =
      (applyOp (Op.submitSurvey form) t).kpi_suggestions :=
  ⟨rfl, rfl⟩

/-- C7: the survey is collected at most once per session:
`survey_completed` starts `false`, the only operation that changes it is
the survey submission, which sets it to `true`; no operation resets it to
`false`; and the survey form is rendered exactly in states where
`survey_completed` is `false`. -/
theorem survey_completed_protocol (op : Op) (s : AppState) :
    initState.survey_completed = false ∧
    (applyOp op s).survey_completed = (s.survey_completed || isSubmit op) ∧
    (rendersSurveyForm s = true → s.survey_completed = false) := by
  refine ⟨rfl, ?_, ?_⟩
  · cases op with
    | submitSurvey form => simp [applyOp, isSubmit]
    | selectKpis sel => simp [applyOp, isSubmit]
    | addDataPoint k t v =>
        simp only [applyOp, isSubmit, Bool.or_false]
        split
        · split <;> rfl
        · rfl
    | generateData k noise =>
        simp only [applyOp, isSubmit, Bool.or_false]
        split <;> rfl
  · intro h
    simpa [rendersSurveyForm] using h

/-- Witness for C7 at a concrete non-submission operation on the fresh
session state, which renders the survey form. -/
theorem survey_completed_protocol_witness :
    initState.survey_completed = false ∧
    (applyOp (Op.selectKpis []) initState).survey_completed =
      (initState.survey_completed || isSubmit (Op.selectKpis [])) ∧
    initState.survey_completed = false :=
  ⟨(survey_completed_protocol (Op.selectKpis []) initState).1,
   (survey_completed_protocol (Op.selectKpis []) initState).2.1,
   (survey_completed_protocol (Op.selectKpis []) initState).2.2 (by decide)⟩

/-- C10: manually adding a data point is append-only and local: with a
non-empty time period, the stored rows for the targeted KPI afterwards are
its previous rows (none for an untracked KPI, making a one-row table)
followed by exactly the new `(time period, value)` row, and the stored data
of every other KPI is unchanged. -/
theorem add_data_point_frame (s : AppState) (k time_period : String) (v : ℚ)
    (ht : time_period ≠ "") :
    dictGet? (applyOp (Op.addDataPoint k time_period v) s).kpi_data k =
      some (dictGetD s.kpi_data k [] ++ [(time_period, v)]) ∧
    (∀ k2, k2 ≠ k →
      dictGet? (applyOp (Op.addDataPoint k time_period v) s).kpi_data k2 =
        dictGet? s.kpi_data k2) := by
  constructor
  · rcases hd : dictGet? s.kpi_data k with _ | old <;>
      simp [applyOp, ht, hd, dictGetD, dictGet_dictSet_self]
  · intro k2 hk2
    rcases hd : dictGet? s.kpi_data k with _ | old <;>
      simp [applyOp, ht, hd, dictGet_dictSet_other _ _ _ _ hk2]

/-- Witness for C10: adding `("Q1 2024", 5)` for `"Churn Rate"` on the
fresh session state leaves `"Adoption Rate"` untouched. -/
theorem add_data_point_frame_witness :
    dictGet? (applyOp (Op.addDataPoint "Churn Rate" "Q1 2024" 5)
        initState).kpi_data "Churn Rate" =
      some (dictGetD initState.kpi_data "Churn Rate" [] ++
        [("Q1 2024", (5 : ℚ))]) ∧
    dictGet? (applyOp (Op.addDataPoint "Churn Rate" "Q1 2024" 5)
        initState).kpi_data "Adoption Rate" =
      dictGet? initState.kpi_data "Adoption Rate" :=
  ⟨(add_data_point_frame initState "Churn Rate" "Q1 2024" 5 (by decide)).1,
   (add_data_point_frame initState "Churn Rate" "Q1 2024" 5 (by decide)).2
     "Adoption Rate" (by decide)⟩

/-! ## Shape and bounds of the fake-data generator -/

theorem months_zip_pipeline (vs : List ℚ) (hlen : vs.length = 12) :
    (if !((month_periods.zip vs).all fun p => month_periods.contains p.1)
      then ([] : List (String × ℚ))
      else (month_periods.zip vs).map (fun p => (p.1, p.2))) =
      month_periods.zip vs ∧
    (month_periods.zip vs).map Prod.fst = month_periods ∧
    (month_periods.zip vs).length = 12 := by
  have hall : ((month_periods.zip vs).all fun p => month_periods.contains p.1)
      = true := by
    rw [List.all_eq_true]
    intro p hp
    have h1 : p.1 ∈ month_periods := (List.of_mem_zip hp).1
    simpa [List.contains] using h1
  have hfst : (month_periods.zip vs).map Prod.fst = month_periods :=
    List.map_fst_zip _ _ (by rw [hlen]; decide)
  refine ⟨by rw [hall]; simp, hfst, ?_⟩
  rw [List.length_zip, hlen]
  decide

theorem floor_le_roundHalfEven (x : ℚ) : ⌊x⌋ ≤ roundHalfEven x := by
  simp only [roundHalfEven]
  split
  · omega
  split
  · omega
  split <;> omega

theorem roundHalfEven_le_ceil (x : ℚ) : roundHalfEven x ≤ ⌈x⌉ := by
  have hceil : (⌊x⌋ : ℚ) < x → ⌊x⌋ + 1 ≤ ⌈x⌉ := by
    intro h
    have := Int.lt_ceil.mpr h
    omega
  simp only [roundHalfEven]
  split
  · exact Int.floor_le_ceil x
  next h1 =>
  split
  next h2 => exact hceil (by linarith)
  next h2 =>
    have heq : x - (⌊x⌋ : ℚ) = 1/2 := le_antisymm (not_lt.mp h2) (not_lt.mp h1)
    split
    · exact Int.floor_le_ceil x
    · exact hceil (by linarith)

theorem pyRound2_bounds (x : ℚ) (h0 : 0 ≤ x) (h1 : x ≤ 100) :
    0 ≤ pyRound2 x ∧ pyRound2 x ≤ 100 := by
  have hl : (0 : ℤ) ≤ roundHalfEven (100 * x) := by
    have hf : (0 : ℤ) ≤ ⌊100 * x⌋ := Int.le_floor.mpr (by push_cast; linarith)
    have := floor_le_roundHalfEven (100 * x)
    omega
  have hu : roundHalfEven (100 * x) ≤ 10000 := by
    have hc : (⌈100 * x⌉ : ℤ) ≤ 10000 := Int.ceil_le.mpr (by push_cast; linarith)
    have := roundHalfEven_le_ceil (100 * x)
    omega
  unfold pyRound2
  constructor
  · apply div_nonneg _ (by norm_num)
    exact_mod_cast hl
  · rw [div_le_iff₀ (by norm_num : (0:ℚ) < 100)]
    calc ((roundHalfEven (100 * x) : ℤ) : ℚ) ≤ ((10000 : ℤ) : ℚ) := by
          exact_mod_cast hu
      _ ≤ 100 * 100 := by norm_num

/-- C5: for every industry, product audience, KPI name and noise
realization, `generate_focused_fake_data` returns exactly 12 rows whose
`Time Period` column is `"Month 1"` through `"Month 12"` in order; the
internal Time-Period-format validation never fails, so the empty-DataFrame
error return is never produced. -/
theorem fake_data_shape (industry product_audience kpi_name : String)
    (noise : Nat → ℚ) :
    (generate_focused_fake_data industry product_audience kpi_name noise).map
      Prod.fst = month_periods ∧
    (generate_focused_fake_data industry product_audience kpi_name
      noise).length = 12 ∧
    generate_focused_fake_data industry product_audience kpi_name noise ≠ [] := by
  have main : ∀ vs : List ℚ, vs.length = 12 →
      ((if !((month_periods.zip vs).all fun p => month_periods.contains p.1)
          then ([] : List (String × ℚ))
          else (month_periods.zip vs).map (fun p => (p.1, p.2))).map Prod.fst =
        month_periods ∧
       (if !((month_periods.zip vs).all fun p => month_periods.contains p.1)
          then ([] : List (String × ℚ))
          else (month_periods.zip vs).map (fun p => (p.1, p.2))).length = 12 ∧
       (if !((month_periods.zip vs).all fun p => month_periods.contains p.1)
          then ([] : List (String × ℚ))
          else (month_periods.zip vs).map (fun p => (p.1, p.2))) ≠ []) := by
    intro vs hv
    obtain ⟨hpipe, hfst, hlen⟩ := months_zip_pipeline vs hv
    rw [hpipe]
    refine ⟨hfst, hlen, ?_⟩
    intro hcontra
    rw [hcontra] at hlen
    simp at hlen
  simp only [generate_focused_fake_data]
  exact main _ (by split <;> simp)

/-- C9: for every industry, product audience, noise realization and KPI
name whose lowercased form contains `"score"`, `"rate"` or `"index"`,
every entry of the `Value` column of `generate_focused_fake_data` lies in
the closed interval `[0, 100]`: each raw value is clamped to at most 100
and at least 0 before being rounded to two decimals. -/
theorem pct_kpi_values_bounded (industry product_audience kpi_name : String)
    (noise : Nat → ℚ) (v : ℚ)
    (hk : (containsSubstr (pyLower kpi_name) "score"
        || containsSubstr (pyLower kpi_name) "rate"
        || containsSubstr (pyLower kpi_name) "index") = true)
    (hv : v ∈ (generate_focused_fake_data industry product_audience kpi_name
        noise).map Prod.snd) :
    0 ≤ v ∧ v ≤ 100 := by
  simp only [generate_focused_fake_data, hk, if_true] at hv
  have main : ∀ vs : List ℚ, vs.length = 12 →
      v ∈ (if !((month_periods.zip vs).all fun p => month_periods.contains p.1)
            then ([] : List (String × ℚ))
            else (month_periods.zip vs).map (fun p => (p.1, p.2))).map Prod.snd →
      v ∈ vs := by
    intro vs hlen hv2
    rw [(months_zip_pipeline vs hlen).1] at hv2
    rw [List.map_snd_zip _ _ (by rw [hlen]; decide)] at hv2
    exact hv2
  have hv2 := main _ (by simp) hv
  rcases List.mem_map.mp hv2 with ⟨i, hi, rfl⟩
  exact pyRound2_bounds _ (le_max_right _ _)
    (max_le (min_le_right _ _) (by norm_num))

/-- Witness for C9 at `"Churn Rate"` in `"Technology"` with zero noise,
where the first generated value is 5. -/
theorem pct_kpi_values_bounded_witness :
    (containsSubstr (pyLower "Churn Rate") "score"
        || containsSubstr (pyLower "Churn Rate") "rate"
        || containsSubstr (pyLower "Churn Rate") "index") = true ∧
    (5 : ℚ) ∈ (generate_focused_fake_data "Technology"
        "B2C (Business-to-Consumer)" "Churn Rate" (fun _ => 0)).map Prod.snd ∧
    (0 ≤ (5 : ℚ) ∧ (5 : ℚ) ≤ 100) :=
  ⟨by decide, by with_unfolding_all decide,
   pct_kpi_values_bounded "Technology" "B2C (Business-to-Consumer)"
     "Churn Rate" (fun _ => 0) 5 (by decide) (by with_unfolding_all decide)⟩

/-! ## Text export -/

theorem pyJoin_cons_of_ne (sep a : String) (L : List String) (h : L ≠ []) :
    pyJoin sep (a :: L) = a ++ sep ++ pyJoin sep L := by
  cases L with
  | nil => exact absurd rfl h
  | cons b t => rfl

theorem shape_fields (r : Rec) (h : kpiShape r = true) :
    ∃ n d g, r = [("name", n), ("description", d), ("guidance", g)] := by
  rcases r with _ | ⟨⟨k1, v1⟩, _ | ⟨⟨k2, v2⟩, _ | ⟨⟨k3, v3⟩, _ | ⟨p4, t⟩⟩⟩⟩ <;>
    simp [kpiShape] at h
  refine ⟨v1, v2, v3, ?_⟩
  simp_all

theorem merge_newline_desc (x : String) :
    "\n" ++ ("Description: " ++ x) = "\nDescription: " ++ x := by
  rw [← String.append_assoc]
  have : ("\n" ++ "Description: " : String) = "\nDescription: " := by decide
  rw [this]

theorem merge_newline_guid (x : String) :
    "\n" ++ ("Guidance: " ++ x) = "\nGuidance: " ++ x := by
  rw [← String.append_assoc]
  have : ("\n" ++ "Guidance: " : String) = "\nGuidance: " := by decide
  rw [this]

theorem textLinesOf_join (l : List Rec) (h : ∀ r ∈ l, kpiShape r = true) :
    ∃ L, textLinesOf l = some L ∧ pyJoin "\n" L = kpiTextRendering l ∧
      (L = [] ↔ l = []) := by
  induction l with
  | nil => exact ⟨[], rfl, rfl, by simp⟩
  | cons r rest ih =>
      obtain ⟨L', hL', hJ', hE'⟩ := ih (fun x hx => h x (List.mem_cons_of_mem _ hx))
      obtain ⟨n, d, g, rfl⟩ := shape_fields r (h _ (List.mem_cons_self _ _))
      refine ⟨("KPI: " ++ n) :: ("Description: " ++ d) ::
          ("Guidance: " ++ g ++ "\n") :: L', ?_, ?_, by simp⟩
      · simp [textLinesOf, dictGet?, hL']
      · cases rest with
        | nil =>
            have hL0 : L' = [] := hE'.mpr rfl
            subst hL0
            simp [pyJoin, kpiTextRendering, kpiBlock, dictGetD, dictGet?,
              String.append_assoc, merge_newline_desc, merge_newline_guid]
        | cons r2 rest' =>
            have hne : L' ≠ [] := fun hh => List.cons_ne_nil r2 rest' (hE'.mp hh)
            show ("KPI: " ++ n) ++ "\n" ++ pyJoin "\n" (("Description: " ++ d) ::
                ("Guidance: " ++ g ++ "\n") :: L') = _
            rw [show pyJoin "\n" (("Description: " ++ d) ::
                ("Guidance: " ++ g ++ "\n") :: L') =
              ("Description: " ++ d) ++ "\n" ++
                pyJoin "\n" (("Guidance: " ++ g ++ "\n") :: L') from rfl]
            rw [pyJoin_cons_of_ne _ _ _ hne, hJ']
            show _ = kpiBlock _ ++ "\n" ++ kpiTextRendering (r2 :: rest')
            simp [kpiBlock, dictGetD, dictGet?, String.append_assoc,
              merge_newline_desc, merge_newline_guid]

/-- C6: the text export is a faithful rendering of the selection: for
every list of KPI records with the string fields `name`, `description`
and `guidance`, `export_kpis_text` returns the UTF-8 encoding of, for each
record in list order, the lines `KPI: <name>`, `Description: <description>`
and `Guidance: <guidance>` followed by a blank line, consecutive blocks
being joined by a newline. -/
theorem text_export_rendering (l : List Rec) (h : ∀ r ∈ l, kpiShape r = true) :
    export_kpis_text l = some (pyUtf8 (kpiTextRendering l)) := by
  obtain ⟨L, hL, hJ, _⟩ := textLinesOf_join l h
  simp [export_kpis_text, hL, hJ]

/-- Witness for C6 at the one-record list holding the Zillow KPI. -/
theorem text_export_rendering_witness :
    (∀ r ∈ [zillowKpi], kpiShape r = true) ∧
    export_kpis_text [zillowKpi] = some (pyUtf8 (kpiTextRendering [zillowKpi])) :=
  ⟨by decide, text_export_rendering [zillowKpi] (by decide)⟩

/-! ## JSON and PDF export -/

theorem except_bind_ok {e a b : Type} (x : a) (f : a → Except e b) :
    (Except.ok x >>= f) = f x := rfl

theorem dumpsEntries_str (kvs : List (String × String)) :
    dumpsEntries (kvs.map (fun p => (p.1, JVal.str p.2))) =
      .ok (kvs.map (fun p => jsonQuote p.1 ++ ": " ++ jsonQuote p.2)) := by
  induction kvs with
  | nil => rfl
  | cons p t ih => simp [dumpsEntries, dumpsVal, ih, except_bind_ok]

theorem dumpsDict_ok (r : Rec) :
    ∃ s, dumpsDict (r.map (fun p => (p.1, JVal.str p.2))) = .ok s := by
  unfold dumpsDict
  rw [dumpsEntries_str r]
  simp only [except_bind_ok]
  split <;> exact ⟨_, rfl⟩

theorem dumpsRecs_ok (l : List Rec) :
    ∃ items, dumpsRecs (kpiListVal l) = .ok items := by
  induction l with
  | nil => exact ⟨[], rfl⟩
  | cons r t ih =>
      obtain ⟨items, hI⟩ := ih
      obtain ⟨s, hs⟩ := dumpsDict_ok r
      refine ⟨s :: items, ?_⟩
      simp only [kpiListVal, List.map_cons] at hI ⊢
      show (dumpsDict (r.map (fun p => (p.1, JVal.str p.2))) >>= fun s2 =>
        dumpsRecs (t.map (fun r2 => r2.map (fun p => (p.1, JVal.str p.2)))) >>=
          fun rest => Except.ok (s2 :: rest)) = Except.ok (s :: items)
      rw [hs, except_bind_ok, hI, except_bind_ok]

theorem pyJsonDumps_ok (l : List Rec) :
    ∃ s, pyJsonDumpsIndent4 (kpiListVal l) = .ok s ∧ s ≠ "" := by
  obtain ⟨items, hI⟩ := dumpsRecs_ok l
  unfold pyJsonDumpsIndent4
  rw [hI]
  simp only [except_bind_ok]
  by_cases hE : items.isEmpty
  · rw [if_pos hE]
    exact ⟨"[]", rfl, by decide⟩
  · rw [if_neg hE]
    refine ⟨_, rfl, ?_⟩
    intro hc
    have h0 := congrArg String.length hc
    rw [String.length_append, String.length_append] at h0
    have h2 : ("[\n" : String).length = 2 := rfl
    have h3 : ("" : String).length = 0 := rfl
    omega

theorem pdfCellsOf_shape (l : List Rec) (h : ∀ r ∈ l, kpiShape r = true) :
    ∃ cs, pdfCellsOf l = some cs := by
  induction l with
  | nil => exact ⟨[], rfl⟩
  | cons r t ih =>
      obtain ⟨cs, hcs⟩ := ih (fun x hx => h x (List.mem_cons_of_mem _ hx))
      obtain ⟨n, d, g, rfl⟩ := shape_fields r (h _ (List.mem_cons_self _ _))
      refine ⟨("KPI: " ++ n) :: ("Description: " ++ d) ::
        ("Guidance: " ++ g ++ "\n") :: cs, ?_⟩
      simp [pdfCellsOf, dictGet?, hcs]

theorem pyEncodeLatin1_replace (s : String) :
    pyEncodeLatin1 "replace" s =
      .ok (s.data.map (fun c => if c.toNat ≤ 255 then UInt8.ofNat c.toNat
        else 63)) := rfl

theorem fpdfOutput_map_ne (cells : List String) (f : Char → UInt8) :
    (fpdfOutput cells).data.map f ≠ [] := by
  intro hc
  have hlen : 9 ≤ (fpdfOutput cells).length := by
    unfold fpdfOutput
    rw [String.length_append, String.length_append]
    have h9 : ("%PDF-1.3\n" : String).length = 9 := rfl
    omega
  have h0 := congrArg List.length hc
  rw [List.length_map] at h0
  have hdl : (fpdfOutput cells).length = (fpdfOutput cells).data.length := rfl
  simp at h0
  omega

theorem export_pdf_ok (l : List Rec) (h : ∀ r ∈ l, kpiShape r = true) :
    ∃ b, export_kpis_pdf l = some b ∧ b ≠ [] := by
  obtain ⟨cs, hcs⟩ := pdfCellsOf_shape l h
  refine ⟨(fpdfOutput ("Selected KPIs" :: cs)).data.map
    (fun c => if c.toNat ≤ 255 then UInt8.ofNat c.toNat else 63), ?_, ?_⟩
  · simp [export_kpis_pdf, hcs, Option.bind, pyEncodeLatin1_replace]
  · exact fpdfOutput_map_ne _ _

/-- C3: the JSON and PDF exports are direct transformations with no
failure branch of their own: for every list of KPI records with the string
fields `name`, `description` and `guidance`, `export_kpis_json` returns
the UTF-8 encoding of the (non-empty) `indent=4` JSON serialization of the
list — the `except TypeError` branch returning `b""` is not taken — and
`export_kpis_pdf` returns a non-empty PDF byte string — the
`except UnicodeEncodeError` branch returning `b""` is not taken. -/
theorem export_serializers_direct (l : List Rec)
    (h : ∀ r ∈ l, kpiShape r = true) :
    (∃ s, pyJsonDumpsIndent4 (kpiListVal l) = .ok s ∧ s ≠ "" ∧
      export_kpis_json l = pyUtf8 s) ∧
    (∃ b, export_kpis_pdf l = some b ∧ b ≠ []) := by
  constructor
  · obtain ⟨s, hs, hne⟩ := pyJsonDumps_ok l
    exact ⟨s, hs, hne, by simp [export_kpis_json, hs]⟩
  · exact export_pdf_ok l h

/-- Witness for C3 at the POC catalog. -/
theorem export_serializers_direct_witness :
    (∀ r ∈ pocKpis, kpiShape r = true) ∧
    ((∃ s, pyJsonDumpsIndent4 (kpiListVal pocKpis) = .ok s ∧ s ≠ "" ∧
        export_kpis_json pocKpis = pyUtf8 s) ∧
     (∃ b, export_kpis_pdf pocKpis = some b ∧ b ≠ [])) :=
  ⟨by decide, export_serializers_direct pocKpis (by decide)⟩
